import Mathlib

/-!
Verification of the scene-to-timeline assembly pipeline of the if-blog-auto
repository.  Each section shallowly embeds one Python component
(`src/scripts/generate_video_v3.py`, `src/scripts/generate_video_v2.py`,
`src/scripts/quality_evaluator.py`, `src/scripts/generate_slide_video.py`)
as executable Lean definitions, and the theorems at the end settle the
specification claims against them.

Numeric conventions: Python floats are modelled as rationals (`ℚ`),
Python ints as `ℤ`/`ℕ`.  `int(x)` on a float truncates toward zero and is
modelled by `pyInt`; `//` is floor division and is modelled by `Int.fdiv`
(or `Nat` division on naturals).
-/

/-- Python `int(x)` applied to a float: truncation toward zero. -/
def pyInt (q : ℚ) : ℤ := if 0 ≤ q then ⌊q⌋ else ⌈q⌉

namespace V3

/-- `VideoConfig` dataclass of `generate_video_v3.py` (the fields consumed by
`TimingCalculator.calculate`, with the dataclass defaults). -/
structure VideoConfig where
  width : ℕ := 1920
  height : ℕ := 1080
  fps : ℕ := 30
  default_slide_duration : ℚ := 5
  min_slide_duration : ℚ := 3
  max_slide_duration : ℚ := 30
  audio_padding : ℚ := 1/2
deriving Repr

/-- One element of the `audio_results` list handed to
`TimingCalculator.calculate`: the dict produced per slide by
`TTSGenerator.generate_all` (`slide_id`, optional `duration`, `narration`;
the base64 payload is irrelevant to timing and omitted). -/
structure AudioResult where
  slide_id : Option ℕ := none
  duration : Option ℚ := none
  narration : String := ""
deriving Repr

/-- `audio.get("duration")` is truthy exactly when the key is present and the
float is nonzero; `TimingCalculator.calculate` then adds the padding,
otherwise falls back to `default_slide_duration`. -/
def rawDuration (cfg : VideoConfig) (a : AudioResult) : ℚ :=
  match a.duration with
  | some d => if d = 0 then cfg.default_slide_duration else d + cfg.audio_padding
  | none => cfg.default_slide_duration

/-- `duration = max(config.min_slide_duration, min(config.max_slide_duration, duration))`. -/
def sceneDuration (cfg : VideoConfig) (a : AudioResult) : ℚ :=
  max cfg.min_slide_duration (min cfg.max_slide_duration (rawDuration cfg a))

/-- `duration_frames = int(duration * self.fps)`. -/
def sceneFrames (fps : ℕ) (cfg : VideoConfig) (a : AudioResult) : ℤ :=
  pyInt (sceneDuration cfg a * fps)

/-- One subtitle segment dict produced by `TimingCalculator._generate_subtitles`. -/
structure SubtitleSeg where
  text : String
  startFrame : ℤ
  endFrame : ℤ
deriving Repr, DecidableEq

/-- The characters of the `re.split(r'[。、！？]', text)` character class. -/
def sentencePunct (c : Char) : Bool :=
  c = '。' || c = '、' || c = '！' || c = '？'

/-- `re.split` on a single-character class: cut the character list at every
punctuation character, keeping empty pieces. -/
def splitPunct : List Char → List (List Char)
  | [] => [[]]
  | c :: t =>
    if sentencePunct c then [] :: splitPunct t
    else
      match splitPunct t with
      | [] => [[c]]
      | h :: r => (c :: h) :: r

/-- Python `str.strip()` on a character list: drop whitespace from both ends. -/
def stripChars (l : List Char) : List Char :=
  ((l.dropWhile Char.isWhitespace).reverse.dropWhile Char.isWhitespace).reverse

/-- Python `str.strip()`. -/
def pyStrip (s : String) : String := String.mk (stripChars s.toList)

/-- `sentences = [s.strip() for s in re.split(r'[。、！？]', text) if s.strip()]`. -/
def sentencesOf (text : String) : List String :=
  ((splitPunct text.toList).map (fun l => pyStrip (String.mk l))).filter (fun s => s ≠ "")

/-- Long sentences are truncated for display:
`sentence[:max_chars] + "..." if len(sentence) > max_chars`. -/
def subtitleDisplay (maxChars : ℕ) (s : String) : String :=
  if s.length > maxChars then String.mk (s.toList.take maxChars) ++ "..." else s

/-- The `for i, sentence in enumerate(sentences)` loop of
`_generate_subtitles`: every segment spans `frames_per_segment` frames except
the last, whose end is forced to `start_frame + total_frames` (`lastEnd`). -/
def subtitleLoop (maxChars : ℕ) (framesPerSegment lastEnd : ℤ) :
    List String → ℤ → List SubtitleSeg
  | [], _ => []
  | [s], current => [⟨subtitleDisplay maxChars s, current, lastEnd⟩]
  | s :: s' :: rest, current =>
    ⟨subtitleDisplay maxChars s, current, current + framesPerSegment⟩ ::
      subtitleLoop maxChars framesPerSegment lastEnd (s' :: rest) (current + framesPerSegment)

/-- `TimingCalculator._generate_subtitles(text, start_frame, total_frames, max_chars=30)`. -/
def generateSubtitles (text : String) (startFrame totalFrames : ℤ)
    (maxChars : ℕ := 30) : List SubtitleSeg :=
  if text = "" ∨ pyStrip text = "" then []
  else if sentencesOf text = [] then
    [⟨String.mk (text.toList.take (maxChars * 2)), startFrame, startFrame + totalFrames⟩]
  else
    subtitleLoop maxChars (totalFrames.fdiv (sentencesOf text).length)
      (startFrame + totalFrames) (sentencesOf text) startFrame

/-- One element of the `timings["slides"]` list built by
`TimingCalculator.calculate` (the base64 audio payload is omitted). -/
structure SlideTiming where
  index : ℕ
  slide_id : ℕ
  startFrame : ℤ
  endFrame : ℤ
  duration : ℚ
  subtitles : List SubtitleSeg
deriving Repr

/-- The `timings` dict returned by `TimingCalculator.calculate`. -/
structure Timings where
  fps : ℕ
  totalFrames : ℤ
  slides : List SlideTiming
deriving Repr

/-- The `for i, audio in enumerate(audio_results)` loop of
`TimingCalculator.calculate`, threading the running `current_frame`;
returns the built slide list together with the final `current_frame`. -/
def calcLoop (fps : ℕ) (cfg : VideoConfig) :
    List AudioResult → ℕ → ℤ → List SlideTiming × ℤ
  | [], _, current => ([], current)
  | a :: rest, i, current =>
    let durationFrames := sceneFrames fps cfg a
    let entry : SlideTiming :=
      { index := i
        slide_id := a.slide_id.getD (i + 1)
        startFrame := current
        endFrame := current + durationFrames
        duration := sceneDuration cfg a
        subtitles := generateSubtitles a.narration current durationFrames }
    let r := calcLoop fps cfg rest (i + 1) (current + durationFrames)
    (entry :: r.1, r.2)

/-- `TimingCalculator.calculate(audio_results, narrations, config)`; the
`narrations` argument of the Python method is never read and is therefore
not a parameter here; `fps` is the constructor argument of `TimingCalculator`. -/
def calculate (fps : ℕ) (audio_results : List AudioResult) (cfg : VideoConfig) : Timings :=
  let r := calcLoop fps cfg audio_results 0 0
  { fps := fps, totalFrames := r.2, slides := r.1 }

/-- Placeholder entry used with `List.getD` when indexing slide lists. -/
def dummySlide : SlideTiming :=
  { index := 0, slide_id := 0, startFrame := 0, endFrame := 0, duration := 0, subtitles := [] }

/-- Placeholder audio result used with `List.getD`. -/
def dummyAudio : AudioResult := {}

theorem calcLoop_length (fps : ℕ) (cfg : VideoConfig) :
    ∀ (l : List AudioResult) (i : ℕ) (c : ℤ),
      (calcLoop fps cfg l i c).1.length = l.length := by
  intro l
  induction l with
  | nil => intro i c; rfl
  | cons a rest ih => intro i c; simp [calcLoop, ih]

theorem calcLoop_snd (fps : ℕ) (cfg : VideoConfig) :
    ∀ (l : List AudioResult) (i : ℕ) (c : ℤ),
      (calcLoop fps cfg l i c).2 = c + (l.map (sceneFrames fps cfg)).sum := by
  intro l
  induction l with
  | nil => intro i c; simp [calcLoop]
  | cons a rest ih =>
    intro i c
    simp only [calcLoop, List.map_cons, List.sum_cons, ih]
    ring

theorem calcLoop_head_start (fps : ℕ) (cfg : VideoConfig) :
    ∀ (l : List AudioResult) (i : ℕ) (c : ℤ), l ≠ [] →
      ((calcLoop fps cfg l i c).1.getD 0 dummySlide).startFrame = c := by
  intro l
  cases l with
  | nil => intro i c h; exact absurd rfl h
  | cons a rest => intro i c _; simp [calcLoop]

theorem calcLoop_end_eq (fps : ℕ) (cfg : VideoConfig) :
    ∀ (l : List AudioResult) (i : ℕ) (c : ℤ) (k : ℕ), k < l.length →
      ((calcLoop fps cfg l i c).1.getD k dummySlide).endFrame =
        ((calcLoop fps cfg l i c).1.getD k dummySlide).startFrame +
          sceneFrames fps cfg (l.getD k dummyAudio) := by
  intro l
  induction l with
  | nil => intro i c k hk; simp at hk
  | cons a rest ih =>
    intro i c k hk
    cases k with
    | zero => simp [calcLoop]
    | succ k =>
      simp only [calcLoop, List.getD_cons_succ]
      exact ih (i + 1) (c + sceneFrames fps cfg a) k (by simpa using hk)

theorem calcLoop_chain (fps : ℕ) (cfg : VideoConfig) :
    ∀ (l : List AudioResult) (i : ℕ) (c : ℤ) (k : ℕ), k + 1 < l.length →
      ((calcLoop fps cfg l i c).1.getD (k + 1) dummySlide).startFrame =
        ((calcLoop fps cfg l i c).1.getD k dummySlide).endFrame := by
  intro l
  induction l with
  | nil => intro i c k hk; simp at hk
  | cons a rest ih =>
    intro i c k hk
    cases k with
    | zero =>
      have hrest : rest ≠ [] := by
        cases rest with
        | nil => simp at hk
        | cons _ _ => exact List.cons_ne_nil _ _
      simp only [calcLoop, List.getD_cons_succ, List.getD_cons_zero]
      exact calcLoop_head_start fps cfg rest (i + 1) (c + sceneFrames fps cfg a) hrest
    | succ k =>
      simp only [calcLoop, List.getD_cons_succ]
      exact ih (i + 1) (c + sceneFrames fps cfg a) k (by simpa using hk)

theorem calcLoop_last_end (fps : ℕ) (cfg : VideoConfig) :
    ∀ (l : List AudioResult) (i : ℕ) (c : ℤ), l ≠ [] →
      ((calcLoop fps cfg l i c).1.getD (l.length - 1) dummySlide).endFrame =
        (calcLoop fps cfg l i c).2 := by
  intro l
  induction l with
  | nil => intro i c h; exact absurd rfl h
  | cons a rest ih =>
    intro i c _
    cases rest with
    | nil => simp [calcLoop]
    | cons b rest' =>
      have hlen : (a :: b :: rest').length - 1 = (b :: rest').length - 1 + 1 := by
        simp [List.length_cons]
      rw [hlen]
      simp only [calcLoop, List.getD_cons_succ]
      exact ih (i + 1) (c + sceneFrames fps cfg a) (List.cons_ne_nil _ _)

/-- Placeholder subtitle segment used with `List.getD`. -/
def dummySub : SubtitleSeg := ⟨"", 0, 0⟩

theorem subtitleLoop_length (mc : ℕ) (f le : ℤ) :
    ∀ (ss : List String) (cur : ℤ), (subtitleLoop mc f le ss cur).length = ss.length := by
  intro ss
  induction ss with
  | nil => intro cur; rfl
  | cons s rest ih =>
    intro cur
    cases rest with
    | nil => rfl
    | cons s' rest' =>
      simp only [subtitleLoop, List.length_cons, ih]

theorem subtitleLoop_nonlast (mc : ℕ) (f le : ℤ) :
    ∀ (ss : List String) (cur : ℤ) (k : ℕ), k + 1 < ss.length →
      ((subtitleLoop mc f le ss cur).getD k dummySub).endFrame =
        ((subtitleLoop mc f le ss cur).getD k dummySub).startFrame + f := by
  intro ss
  induction ss with
  | nil => intro cur k hk; simp at hk
  | cons s rest ih =>
    intro cur k hk
    cases rest with
    | nil => simp at hk
    | cons s' rest' =>
      cases k with
      | zero => simp [subtitleLoop]
      | succ k =>
        simp only [subtitleLoop, List.getD_cons_succ]
        exact ih (cur + f) k (by simpa using hk)

theorem subtitleLoop_last (mc : ℕ) (f le : ℤ) :
    ∀ (ss : List String) (cur : ℤ), ss ≠ [] →
      ((subtitleLoop mc f le ss cur).getD (ss.length - 1) dummySub).endFrame = le := by
  intro ss
  induction ss with
  | nil => intro cur h; exact absurd rfl h
  | cons s rest ih =>
    intro cur _
    cases rest with
    | nil => rfl
    | cons s' rest' =>
      have hlen : (s :: s' :: rest').length - 1 = (s' :: rest').length - 1 + 1 := by
        simp [List.length_cons]
      rw [hlen]
      simp only [subtitleLoop, List.getD_cons_succ]
      exact ih (cur + f) (List.cons_ne_nil _ _)

theorem subtitleLoop_head_start (mc : ℕ) (f le : ℤ) :
    ∀ (ss : List String) (cur : ℤ), ss ≠ [] →
      ((subtitleLoop mc f le ss cur).getD 0 dummySub).startFrame = cur := by
  intro ss cur h
  cases ss with
  | nil => exact absurd rfl h
  | cons s rest => cases rest with
    | nil => rfl
    | cons s' rest' => rfl

theorem splitPunct_no_punct :
    ∀ l : List Char, (∀ c ∈ l, sentencePunct c = false) → splitPunct l = [l] := by
  intro l
  induction l with
  | nil => intro _; rfl
  | cons c t ih =>
    intro h
    have hc : sentencePunct c = false := h c (List.mem_cons_self c t)
    have ht : splitPunct t = [t] := ih (fun x hx => h x (List.mem_cons_of_mem c hx))
    simp [splitPunct, hc, ht]

theorem sentencesOf_no_punct (text : String)
    (hp : ∀ c ∈ text.toList, sentencePunct c = false)
    (hs : pyStrip text ≠ "") :
    sentencesOf text = [pyStrip text] := by
  unfold sentencesOf
  rw [splitPunct_no_punct text.toList hp]
  have he : pyStrip (String.mk text.toList) = pyStrip text := rfl
  simp only [List.map_cons, List.map_nil, he, List.filter_cons, List.filter_nil]
  simp [hs]

end V3

namespace V2

/-- A raster image, abstracted to its pixel dimensions (the pixel values play
no role in any claim). -/
structure Img where
  w : ℕ
  h : ℕ
deriving Repr, DecidableEq

/-- Input slide dict for `SlideImageGenerator.generate_all` (the fields it
reads). -/
structure Slide where
  slide_id : ℕ
  image_prompt : String := ""
  heading : String := ""
deriving Repr, DecidableEq

/-- `SlideImageGenerator._resize_to_16_9`: whatever the decoded dimensions,
the result is pasted centred onto a fresh 1920x1080 RGB canvas, so the saved
raster is always 1920x1080. -/
def resizeTo16_9 (_img : Img) : Img := ⟨1920, 1080⟩

/-- `SlideImageGenerator._create_fallback_image`: a locally generated
1920x1080 gradient with the heading drawn on it — deterministic, no external
call. -/
def createFallbackImage (_slide : Slide) (_topic : String) : Img := ⟨1920, 1080⟩

/-- `SlideImageGenerator._generate_image_gemini`: returns failure immediately
on an empty prompt; otherwise the external generation (network call, payload
extraction and decoding) is modelled by `oracle`, which yields the decoded
raw image on success and `none` on every failure mode; a success is resized
to 16:9 before being saved. -/
def generateImageGemini (oracle : ℕ → Option Img) (i : ℕ) (prompt : String) :
    Option Img :=
  if prompt = "" then none else (oracle i).map resizeTo16_9

/-- Python `f"{n:02d}"`. -/
def pad2 (n : ℕ) : String := if n < 10 then "0" ++ toString n else toString n

/-- One element of the `result_slides` list of `generate_all`: the input
slide together with the image path, saved raster and generation method. -/
structure SlideWithImage where
  slide : Slide
  image_path : String
  image : Img
  generation_method : String
deriving Repr, DecidableEq

/-- The `for slide in slides` loop of `SlideImageGenerator.generate_all`,
with `i` the running index used for the external calls. -/
def generateAllLoop (topic : String) (oracle : ℕ → Option Img) :
    List Slide → ℕ → List SlideWithImage
  | [], _ => []
  | s :: rest, i =>
    let path := "slide_" ++ pad2 s.slide_id ++ ".png"
    let r : SlideWithImage :=
      match generateImageGemini oracle i s.image_prompt with
      | some img => ⟨s, path, img, "gemini"⟩
      | none => ⟨s, path, createFallbackImage s topic, "fallback"⟩
    r :: generateAllLoop topic oracle rest (i + 1)

/-- `SlideImageGenerator.generate_all`, including the final
`assert len(result_slides) == len(slides)`, modelled as an `Option` guard
(`none` would be the `AssertionError`). -/
def generateAll (slides : List Slide) (topic : String) (oracle : ℕ → Option Img) :
    Option (List SlideWithImage) :=
  let rs := generateAllLoop topic oracle slides 0
  if rs.length = slides.length then some rs else none

/-- Placeholder input slide used with `List.getD`. -/
def dummySlideIn : Slide := ⟨0, "", ""⟩

/-- Placeholder result slide used with `List.getD`. -/
def dummyResult : SlideWithImage := ⟨dummySlideIn, "", ⟨0, 0⟩, ""⟩

theorem generateAllLoop_length (topic : String) (oracle : ℕ → Option Img) :
    ∀ (l : List Slide) (i : ℕ), (generateAllLoop topic oracle l i).length = l.length := by
  intro l
  induction l with
  | nil => intro i; rfl
  | cons s rest ih =>
    intro i
    simp only [generateAllLoop, List.length_cons, ih]

theorem generateAllLoop_getD (topic : String) (oracle : ℕ → Option Img) :
    ∀ (l : List Slide) (i k : ℕ), k < l.length →
      (generateAllLoop topic oracle l i).getD k dummyResult =
        (match generateImageGemini oracle (i + k) ((l.getD k dummySlideIn).image_prompt) with
          | some img => ⟨l.getD k dummySlideIn,
              "slide_" ++ pad2 (l.getD k dummySlideIn).slide_id ++ ".png", img, "gemini"⟩
          | none => ⟨l.getD k dummySlideIn,
              "slide_" ++ pad2 (l.getD k dummySlideIn).slide_id ++ ".png",
              createFallbackImage (l.getD k dummySlideIn) topic, "fallback"⟩) := by
  intro l
  induction l with
  | nil => intro i k hk; simp at hk
  | cons s rest ih =>
    intro i k hk
    cases k with
    | zero => simp [generateAllLoop]
    | succ k =>
      simp only [generateAllLoop, List.getD_cons_succ]
      rw [ih (i + 1) k (by simpa using hk)]
      have : i + 1 + k = i + (k + 1) := by omega
      rw [this]

end V2

/-- C5: for every list of N input slides and every pattern of external
image-generation failures, `SlideImageGenerator.generate_all` passes its
final length assertion and returns exactly N results, the i-th carrying the
slide of the i-th input (in particular its `slide_id`), each with a non-empty
(1920x1080) raster — the external image on success, the local fallback
otherwise. -/
theorem image_results_cover_all_scenes (slides : List V2.Slide) (topic : String)
    (oracle : ℕ → Option V2.Img) :
    ∃ rs : List V2.SlideWithImage,
      V2.generateAll slides topic oracle = some rs
      ∧ rs.length = slides.length
      ∧ ∀ k, k < slides.length →
          (rs.getD k V2.dummyResult).slide = slides.getD k V2.dummySlideIn
          ∧ 0 < (rs.getD k V2.dummyResult).image.w
          ∧ 0 < (rs.getD k V2.dummyResult).image.h
          ∧ (V2.generateImageGemini oracle k (slides.getD k V2.dummySlideIn).image_prompt
              = none → (rs.getD k V2.dummyResult).generation_method = "fallback") := by
  refine ⟨V2.generateAllLoop topic oracle slides 0, ?_, V2.generateAllLoop_length _ _ _ _, ?_⟩
  · unfold V2.generateAll
    rw [if_pos (V2.generateAllLoop_length topic oracle slides 0)]
  · intro k hk
    have h := V2.generateAllLoop_getD topic oracle slides 0 k hk
    rw [Nat.zero_add] at h
    rw [h]
    cases hg : V2.generateImageGemini oracle k ((slides.getD k V2.dummySlideIn).image_prompt) with
    | none => exact ⟨rfl, by norm_num [V2.createFallbackImage], by norm_num [V2.createFallbackImage], fun _ => rfl⟩
    | some img =>
      have himg : img = ⟨1920, 1080⟩ := by
        unfold V2.generateImageGemini at hg
        by_cases hp : (slides.getD k V2.dummySlideIn).image_prompt = ""
        · rw [if_pos hp] at hg; exact absurd hg (by simp)
        · rw [if_neg hp] at hg
          obtain ⟨raw, _, hr⟩ := Option.map_eq_some'.mp hg
          exact hr.symm
      refine ⟨rfl, ?_, ?_, fun hn => absurd hn (by simp [hg])⟩
      · rw [himg]; norm_num
      · rw [himg]; norm_num

/-- Witness for C5: two slides against an always-failing external generator
still produce two results with the right slide ids, both 1920x1080 fallbacks. -/
theorem image_results_cover_all_scenes_witness :
    (V2.generateAll [⟨1, "a cat", "h1"⟩, ⟨2, "a dog", "h2"⟩] "psychology"
      (fun _ => none)).isSome = true
    ∧ ((V2.generateAll [⟨1, "a cat", "h1"⟩, ⟨2, "a dog", "h2"⟩] "psychology"
        (fun _ => none)).getD []).length = 2
    ∧ (((V2.generateAll [⟨1, "a cat", "h1"⟩, ⟨2, "a dog", "h2"⟩] "psychology"
        (fun _ => none)).getD []).getD 1 V2.dummyResult).slide.slide_id = 2
    ∧ (((V2.generateAll [⟨1, "a cat", "h1"⟩, ⟨2, "a dog", "h2"⟩] "psychology"
        (fun _ => none)).getD []).getD 1 V2.dummyResult).generation_method = "fallback" := by
  obtain ⟨rs, hrs, hlen, hprop⟩ := image_results_cover_all_scenes
    [⟨1, "a cat", "h1"⟩, ⟨2, "a dog", "h2"⟩] "psychology" (fun _ => none)
  have h1 := hprop 1 (by norm_num)
  refine ⟨by rw [hrs]; rfl, by rw [hrs]; simpa using hlen, ?_, ?_⟩
  · rw [hrs]
    show (rs.getD 1 V2.dummyResult).slide.slide_id = 2
    rw [h1.1]; rfl
  · rw [hrs]
    show (rs.getD 1 V2.dummyResult).generation_method = "fallback"
    exact h1.2.2.2 (by simp [V2.generateImageGemini])

namespace V2

/-- Input slide dict for `AudioSynthesizerV2.synthesize_all` (the fields it
reads). -/
structure SlideN where
  slide_id : ℕ
  narration : String := ""
deriving Repr, DecidableEq

/-- The audio fields `synthesize_all` writes back onto a slide. -/
structure SlideAudioOut where
  slide_id : ℕ
  narration : String
  audio_duration : ℚ
  audio_path : Option String
deriving Repr, DecidableEq

/-- One slide of the `for slide in slides` loop of `synthesize_all`, applied
to the outcome `r` of its single `_synthesize` call: empty narration skips
synthesis and gets the 3.0 s minimum display duration; an exception from
`_synthesize` (service error, missing payload, malformed payload) is caught
and replaced by the 5.0 s fallback duration with no audio file. -/
def synthOne (s : SlideN) (r : Except String ℚ) : SlideAudioOut :=
  if s.narration = "" then ⟨s.slide_id, s.narration, 3, none⟩
  else
    match r with
    | .ok d => ⟨s.slide_id, s.narration, d, some ("audio_" ++ pad2 s.slide_id ++ ".wav")⟩
    | .error _ => ⟨s.slide_id, s.narration, 5, none⟩

/-- The slide loop of `AudioSynthesizerV2.synthesize_all`.  The external TTS
call is modelled by `oracle scene attempt`; the code performs exactly one
attempt (attempt 0) per scene. -/
def synthesizeAllLoop (oracle : ℕ → ℕ → Except String ℚ) :
    List SlideN → ℕ → List SlideAudioOut
  | [], _ => []
  | s :: rest, i => synthOne s (oracle i 0) :: synthesizeAllLoop oracle rest (i + 1)

/-- `AudioSynthesizerV2.synthesize_all` (the combined-narration file it also
produces is irrelevant to the claims). -/
def synthesizeAll (slides : List SlideN) (oracle : ℕ → ℕ → Except String ℚ) :
    List SlideAudioOut :=
  synthesizeAllLoop oracle slides 0

/-- Placeholder input slide used with `List.getD`. -/
def dummyN : SlideN := ⟨0, ""⟩

/-- Placeholder output slide used with `List.getD`. -/
def dummyOut : SlideAudioOut := ⟨0, "", 0, none⟩

theorem synthesizeAllLoop_length (oracle : ℕ → ℕ → Except String ℚ) :
    ∀ (l : List SlideN) (i : ℕ), (synthesizeAllLoop oracle l i).length = l.length := by
  intro l
  induction l with
  | nil => intro i; rfl
  | cons s rest ih => intro i; simp only [synthesizeAllLoop, List.length_cons, ih]

theorem synthesizeAllLoop_getD (oracle : ℕ → ℕ → Except String ℚ) :
    ∀ (l : List SlideN) (i k : ℕ), k < l.length →
      (synthesizeAllLoop oracle l i).getD k dummyOut =
        synthOne (l.getD k dummyN) (oracle (i + k) 0) := by
  intro l
  induction l with
  | nil => intro i k hk; simp at hk
  | cons s rest ih =>
    intro i k hk
    cases k with
    | zero => simp [synthesizeAllLoop]
    | succ k =>
      simp only [synthesizeAllLoop, List.getD_cons_succ]
      rw [ih (i + 1) k (by simpa using hk)]
      have : i + 1 + k = i + (k + 1) := by omega
      rw [this]

/-- Formalization of C8 as stated by the spec: if, for a scene with non-empty
narration, any of the first three synthesis attempts would succeed, the scene
ends up with an audio file. -/
def retriesUpToThree (slides : List SlideN) (oracle : ℕ → ℕ → Except String ℚ) : Prop :=
  ∀ k, k < slides.length → (slides.getD k dummyN).narration ≠ "" →
    (∃ a, a < 3 ∧ ∃ d, oracle k a = .ok d) →
    ((synthesizeAll slides oracle).getD k dummyOut).audio_path ≠ none

/-- An external TTS that fails on the first attempt and would succeed on the
second. -/
def cexOracle : ℕ → ℕ → Except String ℚ :=
  fun _ a => if a = 0 then .error "service error" else .ok 2

end V2

/-- C8 counterexample: the code does not retry synthesis.  With a TTS service
that fails on attempt 0 and would succeed on attempt 1 (within the claimed
3-attempt budget), the scene still ends up with no audio — only a single
attempt is ever made, so the claimed retry behaviour is false. -/
theorem audio_retry_counterexample :
    ¬ V2.retriesUpToThree [⟨1, "こんにちは"⟩] V2.cexOracle := by
  intro h
  have hp := h 0 (by norm_num) (by decide) ⟨1, by norm_num, 2, rfl⟩
  exact hp (by decide)

/-- C8 amended: synthesis is attempted exactly once per scene (no retry); a
scene with empty narration is not synthesized and gets the 3.0 s minimum
display duration; a scene whose single attempt fails for any reason gets the
5.0 s fallback duration and no audio file instead of aborting; the batch
still returns one result per input scene, in input order, with the input
`slide_id`s. -/
theorem audio_single_attempt_fallback (slides : List V2.SlideN)
    (oracle : ℕ → ℕ → Except String ℚ) :
    (V2.synthesizeAll slides oracle).length = slides.length
    ∧ ∀ k, k < slides.length →
        ((V2.synthesizeAll slides oracle).getD k V2.dummyOut).slide_id =
          (slides.getD k V2.dummyN).slide_id
        ∧ ((slides.getD k V2.dummyN).narration = "" →
            ((V2.synthesizeAll slides oracle).getD k V2.dummyOut).audio_duration = 3
            ∧ ((V2.synthesizeAll slides oracle).getD k V2.dummyOut).audio_path = none)
        ∧ (∀ e, (slides.getD k V2.dummyN).narration ≠ "" → oracle k 0 = .error e →
            ((V2.synthesizeAll slides oracle).getD k V2.dummyOut).audio_duration = 5
            ∧ ((V2.synthesizeAll slides oracle).getD k V2.dummyOut).audio_path = none)
        ∧ (∀ d, (slides.getD k V2.dummyN).narration ≠ "" → oracle k 0 = .ok d →
            ((V2.synthesizeAll slides oracle).getD k V2.dummyOut).audio_duration = d
            ∧ ((V2.synthesizeAll slides oracle).getD k V2.dummyOut).audio_path ≠ none) := by
  refine ⟨V2.synthesizeAllLoop_length oracle slides 0, ?_⟩
  intro k hk
  have h := V2.synthesizeAllLoop_getD oracle slides 0 k hk
  rw [Nat.zero_add] at h
  unfold V2.synthesizeAll
  rw [h]
  refine ⟨?_, ?_, ?_, ?_⟩
  · unfold V2.synthOne
    by_cases hn : (slides.getD k V2.dummyN).narration = ""
    · rw [if_pos hn]
    · rw [if_neg hn]
      cases oracle k 0 with
      | ok d => rfl
      | error e => rfl
  · intro hn
    unfold V2.synthOne
    rw [if_pos hn]
    exact ⟨rfl, rfl⟩
  · intro e hn he
    unfold V2.synthOne
    rw [if_neg hn, he]
    exact ⟨rfl, rfl⟩
  · intro d hn hd
    unfold V2.synthOne
    rw [if_neg hn, hd]
    exact ⟨rfl, by simp⟩

/-- Witness for the amended C8: a two-scene batch where the first scene's
single synthesis attempt fails and the second's succeeds with duration 2 s:
the batch returns both scenes in order, the first with the 5.0 s fallback and
no audio file. -/
theorem audio_single_attempt_fallback_witness :
    (V2.synthesizeAll [⟨1, "こんにちは"⟩, ⟨2, "さようなら"⟩] V2.cexOracle).length = 2
    ∧ ((V2.synthesizeAll [⟨1, "こんにちは"⟩, ⟨2, "さようなら"⟩]
        V2.cexOracle).getD 0 V2.dummyOut).audio_duration = 5
    ∧ ((V2.synthesizeAll [⟨1, "こんにちは"⟩, ⟨2, "さようなら"⟩]
        V2.cexOracle).getD 0 V2.dummyOut).audio_path = none
    ∧ ((V2.synthesizeAll [⟨1, "こんにちは"⟩, ⟨2, "さようなら"⟩]
        V2.cexOracle).getD 1 V2.dummyOut).slide_id = 2 := by
  have h := audio_single_attempt_fallback [⟨1, "こんにちは"⟩, ⟨2, "さようなら"⟩] V2.cexOracle
  have h0 := (h.2 0 (by norm_num)).2.2.1 "service error" (by decide) rfl
  have h1 := (h.2 1 (by norm_num)).1
  exact ⟨by rw [h.1]; rfl, h0.1, h0.2, by rw [h1]; rfl⟩

namespace QE

/-- Python's `needle in haystack` on character lists. -/
def containsSubList (n : List Char) : List Char → Bool
  | [] => n.isEmpty
  | c :: t => n.isPrefixOf (c :: t) || containsSubList n t

/-- Python's `needle in haystack` substring test. -/
def pyIn (needle hay : String) : Bool := containsSubList needle.toList hay.toList

/-- Python's `hay.count(needle)`: non-overlapping occurrences, scanning left
to right. -/
def countSubList (n : List Char) (hay : List Char) : ℕ :=
  match hay with
  | [] => 0
  | c :: t =>
    if n.isPrefixOf (c :: t) then 1 + countSubList n (List.drop (n.length - 1) t)
    else countSubList n t
termination_by hay.length
decreasing_by
  · simp [List.length_drop]; omega
  · simp

/-- Python's `hay.count(needle)`. -/
def pyCount (hay needle : String) : ℕ := countSubList needle.toList hay.toList

/-- The emoji regex character class of `evaluate_article`: emoticons, symbols
and pictographs, transport and map symbols, flags. -/
def isEmojiChar (c : Char) : Bool :=
  (0x1F600 ≤ c.toNat && c.toNat ≤ 0x1F64F)
  || (0x1F300 ≤ c.toNat && c.toNat ≤ 0x1F5FF)
  || (0x1F680 ≤ c.toNat && c.toNat ≤ 0x1F6FF)
  || (0x1F1E0 ≤ c.toNat && c.toNat ≤ 0x1F1FF)

/-- `emoji_pattern.search(content)` is a match iff some character is in the
class. -/
def hasEmoji (s : String) : Bool := s.toList.any isEmojiChar

/-- The `@dataclass QualityResult` of `quality_evaluator.py`. -/
structure QualityResult where
  category : String
  score : ℚ
  max_score : ℚ
  passed : Bool
  issues : List String
  recommendations : List String
deriving Repr, DecidableEq

/-- The article dict consumed by `QualityEvaluator.evaluate_article` (the
fields it reads; `sources` only matters through its length). -/
structure Article where
  title : String := ""
  content : String := ""
  word_count : Option ℕ := none
  seo_score : Option ℚ := none
  sources : List String := []
deriving Repr

/-- `word_count = article.get("word_count", len(content))`. -/
def wordCountOf (a : Article) : ℕ := a.word_count.getD a.content.length

/-- `critical_length_failure = word_count < 15000`. -/
def criticalLengthFailure (a : Article) : Bool := wordCountOf a < 15000

/-- Check 1 of `evaluate_article` (weight 10): content length, with partial
credit at 15k/10k/5k characters; returns (score, issues, recommendations). -/
def lengthCheck (a : Article) : ℚ × List String × List String :=
  let wc := wordCountOf a
  if wc ≥ 20000 then (10, [], [])
  else if wc ≥ 15000 then (7, [s!"文字数が目標未達: {wc}文字（目標20,000+）"], [])
  else if wc ≥ 10000 then
    (4, [s!"[重要] 文字数が不足: {wc}文字（最低15,000+必須）"],
      ["記事の内容を大幅に拡充してください（最低15,000文字以上）"])
  else if wc ≥ 5000 then
    (2, [s!"[致命的] 文字数が大幅に不足: {wc}文字"],
      ["記事の内容を大幅に拡充してください（目標20,000文字以上）"])
  else
    (0, [s!"[致命的] 文字数が著しく不足: {wc}文字"],
      ["記事の内容を大幅に拡充してください（目標20,000文字以上）"])

/-- Check 2 of `evaluate_article` (weight 10): intro / `## ` section count /
conclusion. -/
def structureCheck (a : Article) : ℚ × List String × List String :=
  let has_intro := pyIn "はじめに" a.content || pyIn "導入" a.content
    || a.content.startsWith "#"
  let sc := pyCount a.content "## "
  let has_conclusion := pyIn "まとめ" a.content || pyIn "結論" a.content
    || pyIn "おわりに" a.content
  if has_intro && sc ≥ 12 && has_conclusion then (10, [], [])
  else if has_intro && sc ≥ 8 && has_conclusion then
    (7, [s!"セクション数が目標未達: {sc}個（目標12+）"], [])
  else if sc ≥ 5 then (5, [s!"記事の構成が不完全: {sc}セクション"], [])
  else (0, [s!"記事の構成が不十分: {sc}セクション"],
    ["15セクション以上の充実した構成にしてください"])

/-- Check 3 of `evaluate_article` (weight 8): number of sources. -/
def sourcesCheck (a : Article) : ℚ × List String × List String :=
  let n := a.sources.length
  if n ≥ 10 then (8, [], [])
  else if n ≥ 7 then (28/5, [s!"情報ソースがやや少ない: {n}件（推奨10+）"], [])
  else if n ≥ 5 then (4, [s!"情報ソースが少ない: {n}件（推奨10+）"], [])
  else (0, [s!"情報ソースが不足: {n}件"],
    ["信頼できる情報ソースを10個以上追加してください"])

/-- Deterministic string rendering of a rational (stands in for Python's
float formatting inside f-strings; the exact rendering carries no meaning in
any claim). -/
def ratStr (q : ℚ) : String :=
  if q.den = 1 then toString q.num else toString q.num ++ "/" ++ toString q.den

/-- Check 4 of `evaluate_article` (weight 6): SEO score,
`article.get("seo_score", 70)`. -/
def seoCheck (a : Article) : ℚ × List String × List String :=
  let s := a.seo_score.getD 70
  if s ≥ 85 then (6, [], [])
  else if s ≥ 70 then (21/5, [s!"SEOスコアが目標未達: {ratStr s}（目標85+）"], [])
  else (9/5, [s!"SEOスコアが低い: {ratStr s}"],
    ["キーワード最適化とメタ情報を改善してください"])

/-- Check 5 of `evaluate_article` (weight 8): readability — average paragraph
length below 500, presence of lists, presence of headings. -/
def readabilityCheck (a : Article) : ℚ × List String × List String :=
  let avg : ℚ := (a.content.length : ℚ) / max (pyCount a.content "\n\n") 1
  let has_lists := pyIn "- " a.content || pyIn "* " a.content || pyIn "1. " a.content
  let has_headings := pyIn "## " a.content
  let rs : ℚ := (if avg < 500 then 2/5 else 0) + (if has_lists then 3/10 else 0)
    + (if has_headings then 3/10 else 0)
  (8 * rs,
    if rs < 7/10 then ["読みやすさに改善の余地あり"] else [],
    if rs < 7/10 then ["適切な見出しと箇条書きを使用してください"] else [])

/-- Check 6 of `evaluate_article` (weight 4): emoji prohibition. -/
def emojiCheck (a : Article) : ℚ × List String × List String :=
  if hasEmoji a.content then
    (0, ["絵文字が使用されています（禁止）"], ["全ての絵文字を削除してください"])
  else (4, [], [])

/-- Check 7 of `evaluate_article` (weight 4): engagement elements (question,
story, surprise, action), a quarter point each. -/
def engagementCheck (a : Article) : ℚ × List String × List String :=
  let q := pyIn "?" a.content || pyIn "でしょうか" a.content
  let story := pyIn "事例" a.content || pyIn "ケース" a.content
    || pyIn "ストーリー" a.content
  let surprise := pyIn "意外" a.content || pyIn "知っていましたか" a.content
    || pyIn "実は" a.content
  let action := pyIn "アクション" a.content || pyIn "実践" a.content
    || pyIn "今日から" a.content
  let es : ℚ := (if q then 1/4 else 0) + (if story then 1/4 else 0)
    + (if surprise then 1/4 else 0) + (if action then 1/4 else 0)
  (4 * es,
    if es < 3/4 then ["読者エンゲージメント要素が不足しています"] else [],
    if es < 3/4 then ["読者への問いかけ、驚きの事実、ストーリー要素を追加してください"] else [])

/-- The accumulated `score` of `evaluate_article` (out of 50). -/
def articleScore (a : Article) : ℚ :=
  (lengthCheck a).1 + (structureCheck a).1 + (sourcesCheck a).1 + (seoCheck a).1
    + (readabilityCheck a).1 + (emojiCheck a).1 + (engagementCheck a).1

/-- The `issues` list of `evaluate_article` before the forced-failure insert,
in append order. -/
def articleIssuesBase (a : Article) : List String :=
  (lengthCheck a).2.1 ++ (structureCheck a).2.1 ++ (sourcesCheck a).2.1
    ++ (seoCheck a).2.1 ++ (readabilityCheck a).2.1 ++ (emojiCheck a).2.1
    ++ (engagementCheck a).2.1

/-- The `recommendations` list of `evaluate_article` before the
forced-failure insert. -/
def articleRecsBase (a : Article) : List String :=
  (lengthCheck a).2.2 ++ (structureCheck a).2.2 ++ (sourcesCheck a).2.2
    ++ (seoCheck a).2.2 ++ (readabilityCheck a).2.2 ++ (emojiCheck a).2.2
    ++ (engagementCheck a).2.2

/-- `score_passed = (score / max_score) >= self.PASS_THRESHOLD` (0.97). -/
def scorePassedA (a : Article) : Bool := articleScore a / 50 ≥ 97/100

/-- The issue text inserted at position 0 when the hard length floor forces
failure despite a passing weighted score. -/
def forcedFailIssue (wc : ℕ) : String :=
  s!"[強制不合格] 文字数が最低基準（15,000文字）未満: {wc}文字"

/-- `QualityEvaluator.evaluate_article`: weighted 50-point rubric with the
15,000-character hard floor forcing `passed = False` regardless of score. -/
def evaluateArticle (a : Article) : QualityResult :=
  { category := "article"
    score := articleScore a
    max_score := 50
    passed := scorePassedA a && !criticalLengthFailure a
    issues :=
      (if criticalLengthFailure a && scorePassedA a then [forcedFailIssue (wordCountOf a)]
        else []) ++ articleIssuesBase a
    recommendations :=
      (if criticalLengthFailure a && scorePassedA a then
        ["記事を15,000文字以上に拡充することが必須です"] else []) ++ articleRecsBase a }

/-- One slide dict as read by `evaluate_slides`. -/
structure SlideQ where
  heading : String := ""
  points : List String := []
  type : Option String := none
deriving Repr

/-- The `slides_data` dict consumed by `evaluate_slides`. -/
structure SlidesData where
  slides : List SlideQ := []
  slide_images : List String := []
  markdown_path : Option String := none
  pdf_path : Option String := none
deriving Repr

/-- The file-system state the evaluator reads (`Path.exists`, `Path.stat`
— `none` models a raised `OSError` — and `Path.read_text`). -/
structure FS where
  pathExists : String → Bool
  fileSize : String → Option ℕ
  fileText : String → String

/-- `Path(p).name`: the component after the last `/`. -/
def baseName (p : String) : String :=
  String.mk (p.toList.foldl (fun acc c => if c = '/' then [] else acc ++ [c]) [])

/-- `total_text = heading + " ".join(points)`. -/
def slideTotalText (s : SlideQ) : String :=
  s.heading ++ String.intercalate " " s.points

/-- The per-slide text-length issues of `evaluate_slides`, in slide order. -/
def slideTextIssuesLoop : List SlideQ → ℕ → List String
  | [], _ => []
  | s :: rest, i =>
    (if (slideTotalText s).length > 100 then
      [s!"スライド{i+1}: テキスト過多（{(slideTotalText s).length}文字）"] else [])
      ++ slideTextIssuesLoop rest (i + 1)

/-- `text_ok_count`: slides whose combined text is at most 100 characters. -/
def textOkCount (slides : List SlideQ) : ℕ :=
  (slides.filter (fun s => (slideTotalText s).length ≤ 100)).length

/-- The design-consistency walk over `slide_images`: each unreadable or
sub-10KB image costs 0.1; issues only for the sub-10KB case, matching the
`try`/`except` in the code.  Returns (penalty count, issues). -/
def designWalk (fs : FS) : List String → ℕ × List String
  | [] => (0, [])
  | p :: rest =>
    let r := designWalk fs rest
    match fs.fileSize p with
    | some size =>
      if size < 10 * 1024 then
        (r.1 + 1, (s!"画像サイズが小さすぎます: {baseName p}") :: r.2)
      else (r.1, r.2)
    | none => (r.1 + 1, r.2)

/-- Truthiness of an optional path string. -/
def pathTruthy (p : Option String) : Bool :=
  match p with
  | some s => s ≠ ""
  | none => false

/-- `QualityEvaluator.evaluate_slides`: 30-point rubric over slide count,
per-slide text volume, image coverage, structure, design consistency and
Marp compatibility. -/
def evaluateSlides (fs : FS) (d : SlidesData) : QualityResult :=
  let n := d.slides.length
  let countPart : ℚ × List String × List String :=
    if 10 ≤ n ∧ n ≤ 15 then (5, [], [])
    else if 8 ≤ n ∧ n ≤ 17 then (3, [s!"スライド枚数が推奨範囲外: {n}枚（推奨10-15枚）"], [])
    else (0, [s!"スライド枚数が不適切: {n}枚"], ["スライド枚数を10-15枚に調整してください"])
  let textRatio : ℚ := (textOkCount d.slides : ℚ) / (max n 1 : ℕ)
  let textPart : ℚ × List String × List String :=
    (5 * textRatio, slideTextIssuesLoop d.slides 0,
      if textRatio < 4/5 then ["各スライドのテキスト量を100文字以内に抑えてください"] else [])
  let ic := d.slide_images.length
  let imagePart : ℚ × List String × List String :=
    if ic ≥ n then (5, [], [])
    else if (ic : ℚ) ≥ (n : ℚ) * (4/5) then
      (7/2, [s!"一部のスライドに画像がありません: {ic}/{n}"], [])
    else (0, [s!"画像が大幅に不足: {ic}/{n}"], ["全てのスライドに画像を追加してください"])
  let has_title := d.slides.any (fun s => s.type = some "title")
  let has_ending := d.slides.any (fun s => s.type = some "ending")
  let contentCount := (d.slides.filter (fun s => s.type = some "content")).length
  let structPart : ℚ × List String × List String :=
    if has_title && has_ending && contentCount ≥ 5 then (5, [], [])
    else if has_title || has_ending then (5/2, ["スライド構成が不完全"], [])
    else (0, ["スライド構成が不適切"], ["タイトル→コンテンツ→エンディングの構成を確保してください"])
  let dw := designWalk fs d.slide_images
  let designScore : ℚ := 1 - (dw.1 : ℚ) / 10
  let designPart : ℚ × List String := (5 * max 0 designScore, dw.2)
  let marpPart : ℚ × List String × List String :=
    if pathTruthy d.markdown_path && fs.pathExists (d.markdown_path.getD "") then
      (if pyIn "marp: true" (fs.fileText (d.markdown_path.getD "")) then (5, [], [])
        else (0, ["Marpフロントマターがありません"], []))
    else if pathTruthy d.pdf_path && fs.pathExists (d.pdf_path.getD "") then (5, [], [])
    else (0, ["マークダウンまたはPDFが見つかりません"],
      ["Marp互換のマークダウンを生成してください"])
  let score := countPart.1 + textPart.1 + imagePart.1 + structPart.1 + designPart.1
    + marpPart.1
  { category := "slides"
    score := score
    max_score := 30
    passed := score / 30 ≥ 97/100
    issues := countPart.2.1 ++ textPart.2.1 ++ imagePart.2.1 ++ structPart.2.1
      ++ designPart.2 ++ marpPart.2.1
    recommendations := countPart.2.2 ++ textPart.2.2 ++ imagePart.2.2 ++ structPart.2.2
      ++ marpPart.2.2 }

/-- The `video_data` dict consumed by `evaluate_video` (the fields it reads,
with their `get` defaults). -/
structure VideoData where
  path : Option String := none
  resolution : String := ""
  has_audio : Bool := false
  size_bytes : ℕ := 0
  duration : ℚ := 30
  narration_audio_size : ℕ := 0
  narration_script : String := ""
  status : String := ""
  error : Option String := none
deriving Repr

/-- `QualityEvaluator.evaluate_video`: 30-point rubric over resolution, audio
quality, timing, transitions (inferred from file size), file size and error
status. -/
def evaluateVideo (fs : FS) (v : VideoData) : QualityResult :=
  let resPart : ℚ × List String × List String :=
    if v.resolution = "1920x1080" then (5, [], [])
    else if pyIn "1920" v.resolution || pyIn "1080" v.resolution then
      (7/2, [s!"解像度が標準と異なります: {v.resolution}"], [])
    else (0, [s!"解像度が不適切: {v.resolution}"], ["1920x1080の解像度で出力してください"])
  let audioPart : ℚ × List String × List String :=
    if v.has_audio then
      (if v.narration_audio_size > 50000 ∧ v.narration_script.length > 100 then (5, [], [])
        else if v.narration_audio_size > 0 then (3, ["音声品質に改善の余地があります"], [])
        else (0, ["音声データが不正です"], []))
    else (0, ["音声が含まれていません（必須）"], ["TTS音声を生成して動画に統合してください"])
  let timingPart : ℚ × List String × List String :=
    if 25 ≤ v.duration ∧ v.duration ≤ 120 then (5, [], [])
    else (5/2, [s!"動画の長さが不適切: {ratStr v.duration}秒"], [])
  let transPart : ℚ × List String × List String :=
    if v.size_bytes > 5 * 1024 * 1024 then (5, [], [])
    else if v.size_bytes > 2 * 1024 * 1024 then
      (7/2, ["動画の品質が低い可能性があります"], [])
    else (0, ["動画ファイルサイズが小さすぎます"],
      ["高品質設定で動画を再レンダリングしてください"])
  let sizePart : ℚ × List String × List String :=
    if 2 * 1024 * 1024 ≤ v.size_bytes ∧ v.size_bytes ≤ 100 * 1024 * 1024 then (5, [], [])
    else if v.size_bytes > 0 then
      (5/2,
        if v.size_bytes < 2 * 1024 * 1024 then ["ファイルサイズが小さすぎます"]
        else ["ファイルサイズが大きすぎます"], [])
    else (0, ["動画ファイルが存在しません"], [])
  let errMsg := v.error.getD "不明"
  let errorPart : ℚ × List String × List String :=
    if v.status = "success" && pathTruthy v.path && fs.pathExists (v.path.getD "") then
      (5, [], [])
    else if v.status = "success" then (5/2, ["動画ファイルが見つかりません"], [])
    else (0, [s!"動画生成エラー: {errMsg}"],
      ["エラーを解決して動画を再生成してください"])
  let score := resPart.1 + audioPart.1 + timingPart.1 + transPart.1 + sizePart.1
    + errorPart.1
  { category := "video"
    score := score
    max_score := 30
    passed := score / 30 ≥ 97/100
    issues := resPart.2.1 ++ audioPart.2.1 ++ timingPart.2.1 ++ transPart.2.1
      ++ sizePart.2.1 ++ errorPart.2.1
    recommendations := resPart.2.2 ++ audioPart.2.2 ++ timingPart.2.2 ++ transPart.2.2
      ++ sizePart.2.2 ++ errorPart.2.2 }

/-- Python's `round(x, 1)`: banker's rounding (half to even) at one decimal. -/
def bankersRound (q : ℚ) : ℤ :=
  if q - ⌊q⌋ = 1/2 then (if 2 ∣ ⌊q⌋ then ⌊q⌋ else ⌊q⌋ + 1) else round q

/-- `round(x, 1)`. -/
def pyRound1 (q : ℚ) : ℚ := (bankersRound (10 * q) : ℚ) / 10

/-- The per-category dict built by `evaluate_all` from a `QualityResult`. -/
structure CategoryOut where
  score : ℚ
  max_score : ℚ
  percentage : ℚ
  passed : Bool
  issues : List String
  recommendations : List String
deriving Repr

/-- `CategoryOut` from a `QualityResult`, with the rounded percentage. -/
def catOut (r : QualityResult) : CategoryOut :=
  { score := r.score, max_score := r.max_score,
    percentage := pyRound1 (r.score / r.max_score * 100),
    passed := r.passed, issues := r.issues, recommendations := r.recommendations }

/-- The `overall` dict of `evaluate_all`. -/
structure Overall where
  score : ℚ
  max_score : ℚ
  percentage : ℚ
  passed : Bool
  threshold : ℚ
deriving Repr

/-- The full report dict returned by `evaluate_all`. -/
structure FullReport where
  overall : Overall
  article : CategoryOut
  slides : Option CategoryOut
  video : Option CategoryOut
  all_issues : List String
  all_recommendations : List String
  summary : String
deriving Repr

/-- `QualityEvaluator._generate_summary`. -/
def generateSummary (percentage : ℚ) (passed : Bool) : String :=
  if passed then s!"品質評価合格: {ratStr percentage}%（基準: {ratStr 97}%）"
  else s!"品質評価不合格: {ratStr percentage}%（基準まであと{ratStr (97 - percentage)}ポイント必要）"

/-- The mutable state of a `QualityEvaluator` instance: the lazily created
Gemini client cache (`self.gemini_client`), which the evaluation methods
never consult. -/
structure EvaluatorState where
  gemini_client : Option Unit := none

/-- `QualityEvaluator.evaluate_all(article, slides_data, video_data)` with
the file-system state made explicit. -/
def evaluateAll (_st : EvaluatorState) (fs : FS) (a : Article)
    (slides_data : Option SlidesData) (video_data : Option VideoData) : FullReport :=
  let ar := evaluateArticle a
  let sr := slides_data.map (evaluateSlides fs)
  let vr := video_data.map (evaluateVideo fs)
  let total_score := ar.score + (sr.map (·.score)).getD 0 + (vr.map (·.score)).getD 0
  let total_max := ar.max_score + (sr.map (·.max_score)).getD 0
    + (vr.map (·.max_score)).getD 0
  let overall_percentage := if total_max > 0 then pyRound1 (total_score / total_max * 100)
    else 0
  let overall_passed : Bool := overall_percentage ≥ 97
  let all_issues := (ar.issues.map (fun i => "[article] " ++ i))
    ++ ((sr.map (·.issues)).getD []).map (fun i => "[slides] " ++ i)
    ++ ((vr.map (·.issues)).getD []).map (fun i => "[video] " ++ i)
  let all_recs := (ar.recommendations.map (fun i => "[article] " ++ i))
    ++ ((sr.map (·.recommendations)).getD []).map (fun i => "[slides] " ++ i)
    ++ ((vr.map (·.recommendations)).getD []).map (fun i => "[video] " ++ i)
  { overall :=
      { score := total_score, max_score := total_max, percentage := overall_percentage,
        passed := overall_passed, threshold := 97 }
    article := catOut ar
    slides := sr.map catOut
    video := vr.map catOut
    all_issues := all_issues
    all_recommendations := all_recs
    summary := generateSummary overall_percentage overall_passed }

/-- A file system with no readable files, for witnesses. -/
def emptyFS : FS := ⟨fun _ => false, fun _ => none, fun _ => ""⟩

/-- Below the hard floor the length criterion awards at most 4 of its 10
points. -/
theorem lengthCheck_le (a : Article) (h : wordCountOf a < 15000) :
    (lengthCheck a).1 ≤ 4 := by
  simp only [lengthCheck]
  split_ifs with h1 h2 h3 h4
  · exact absurd h1 (by omega)
  · exact absurd h2 (by omega)
  · norm_num
  · norm_num
  · norm_num

theorem structureCheck_le (a : Article) : (structureCheck a).1 ≤ 10 := by
  simp only [structureCheck]
  split_ifs <;> norm_num

theorem sourcesCheck_le (a : Article) : (sourcesCheck a).1 ≤ 8 := by
  simp only [sourcesCheck]
  split_ifs <;> norm_num

theorem seoCheck_le (a : Article) : (seoCheck a).1 ≤ 6 := by
  simp only [seoCheck]
  split_ifs <;> norm_num

theorem readabilityCheck_le (a : Article) : (readabilityCheck a).1 ≤ 8 := by
  simp only [readabilityCheck]
  split_ifs <;> norm_num

theorem emojiCheck_le (a : Article) : (emojiCheck a).1 ≤ 4 := by
  simp only [emojiCheck]
  split_ifs <;> norm_num

theorem engagementCheck_le (a : Article) : (engagementCheck a).1 ≤ 4 := by
  simp only [engagementCheck]
  split_ifs <;> norm_num

/-- Below the hard floor the total article score is capped at
4+10+8+6+8+4+4 = 44 of 50. -/
theorem articleScore_le_44 (a : Article) (h : wordCountOf a < 15000) :
    articleScore a ≤ 44 := by
  unfold articleScore
  have := lengthCheck_le a h
  have := structureCheck_le a
  have := sourcesCheck_le a
  have := seoCheck_le a
  have := readabilityCheck_le a
  have := emojiCheck_le a
  have := engagementCheck_le a
  linarith

/-- Below the hard floor the weighted score alone can never reach the 97%
pass threshold: 44/50 = 88%. -/
theorem scorePassedA_false_of_low (a : Article) (h : wordCountOf a < 15000) :
    scorePassedA a = false := by
  simp only [scorePassedA, decide_eq_false_iff_not]
  intro hge
  have hb := articleScore_le_44 a h
  linarith

/-- When the weighted score does not pass, the forced-failure insert does not
run, so the issues list is exactly the ordinary itemized list. -/
theorem issues_eq_base_of_not_scorePassed (a : Article)
    (h : scorePassedA a = false) :
    (evaluateArticle a).issues = articleIssuesBase a := by
  simp [evaluateArticle, h]

theorem sndChar_append (p x : String) (h : 1 < p.data.length) :
    (p ++ x).data.getD 1 ' ' = p.data.getD 1 ' ' := by
  rw [String.data_append]
  exact List.getD_append _ _ _ _ h

theorem sndChar_interp (lit mid tail : String) (h : 1 < lit.data.length) :
    ((lit ++ mid) ++ tail).data.getD 1 ' ' = lit.data.getD 1 ' ' := by
  have hAB : 1 < (lit ++ mid).data.length := by
    rw [String.data_append, List.length_append]
    omega
  rw [sndChar_append _ _ hAB, sndChar_append _ _ h]

/-- The second character of the forced-failure issue is `強`. -/
theorem forcedFailIssue_sndChar (wc : ℕ) :
    (forcedFailIssue wc).data.getD 1 ' ' = '強' := by
  unfold forcedFailIssue
  rw [sndChar_interp (toString "[強制不合格] 文字数が最低基準（15,000文字）未満: ")
    (toString wc) (toString "文字") (by decide)]
  decide

/-- The forced-failure issue differs from any interpolated issue whose
literal head has a different second character. -/
theorem ff_ne_interp (wc : ℕ) (lit mid tail : String)
    (h1 : 1 < lit.data.length) (h2 : lit.data.getD 1 ' ' ≠ '強') :
    forcedFailIssue wc ≠ (lit ++ mid) ++ tail := by
  intro he
  have h3 : (forcedFailIssue wc).data.getD 1 ' ' =
      ((lit ++ mid) ++ tail).data.getD 1 ' ' := by rw [he]
  rw [forcedFailIssue_sndChar wc, sndChar_interp lit mid tail h1] at h3
  exact h2 h3.symm

/-- The forced-failure issue differs from any literal issue with a different
second character. -/
theorem ff_ne_lit (wc : ℕ) (t : String) (h2 : t.data.getD 1 ' ' ≠ '強') :
    forcedFailIssue wc ≠ t := by
  intro he
  have h3 : (forcedFailIssue wc).data.getD 1 ' ' = t.data.getD 1 ' ' := by rw [he]
  rw [forcedFailIssue_sndChar wc] at h3
  exact h2 h3.symm

theorem ff_not_in_lengthIssues (a : Article) (wc : ℕ) :
    forcedFailIssue wc ∉ (lengthCheck a).2.1 := by
  simp only [lengthCheck]
  split_ifs <;>
    first
      | exact List.not_mem_nil _
      | (simp only [List.mem_singleton]
         exact ff_ne_interp _ _ _ _ (by decide) (by decide))

theorem ff_not_in_structureIssues (a : Article) (wc : ℕ) :
    forcedFailIssue wc ∉ (structureCheck a).2.1 := by
  simp only [structureCheck]
  split_ifs <;>
    first
      | exact List.not_mem_nil _
      | (simp only [List.mem_singleton]
         exact ff_ne_interp _ _ _ _ (by decide) (by decide))

theorem ff_not_in_sourcesIssues (a : Article) (wc : ℕ) :
    forcedFailIssue wc ∉ (sourcesCheck a).2.1 := by
  simp only [sourcesCheck]
  split_ifs <;>
    first
      | exact List.not_mem_nil _
      | (simp only [List.mem_singleton]
         exact ff_ne_interp _ _ _ _ (by decide) (by decide))

theorem ff_not_in_seoIssues (a : Article) (wc : ℕ) :
    forcedFailIssue wc ∉ (seoCheck a).2.1 := by
  simp only [seoCheck]
  split_ifs <;>
    first
      | exact List.not_mem_nil _
      | (simp only [List.mem_singleton]
         exact ff_ne_interp _ _ _ _ (by decide) (by decide))

theorem ff_not_in_readabilityIssues (a : Article) (wc : ℕ) :
    forcedFailIssue wc ∉ (readabilityCheck a).2.1 := by
  simp only [readabilityCheck]
  split_ifs <;>
    first
      | exact List.not_mem_nil _
      | (simp only [List.mem_singleton]
         exact ff_ne_lit _ _ (by decide))

theorem ff_not_in_emojiIssues (a : Article) (wc : ℕ) :
    forcedFailIssue wc ∉ (emojiCheck a).2.1 := by
  simp only [emojiCheck]
  split_ifs <;>
    first
      | exact List.not_mem_nil _
      | (simp only [List.mem_singleton]
         exact ff_ne_lit _ _ (by decide))

theorem ff_not_in_engagementIssues (a : Article) (wc : ℕ) :
    forcedFailIssue wc ∉ (engagementCheck a).2.1 := by
  simp only [engagementCheck]
  split_ifs <;>
    first
      | exact List.not_mem_nil _
      | (simp only [List.mem_singleton]
         exact ff_ne_lit _ _ (by decide))

/-- The forced-failure override issue never occurs among the ordinary
itemized issues of any article, for any word count: every ordinary issue
starts differently. -/
theorem forcedFailIssue_not_in_base (a : Article) (wc : ℕ) :
    forcedFailIssue wc ∉ articleIssuesBase a := by
  unfold articleIssuesBase
  simp only [List.mem_append, not_or]
  exact ⟨⟨⟨⟨⟨⟨ff_not_in_lengthIssues a wc, ff_not_in_structureIssues a wc⟩,
    ff_not_in_sourcesIssues a wc⟩, ff_not_in_seoIssues a wc⟩,
    ff_not_in_readabilityIssues a wc⟩, ff_not_in_emojiIssues a wc⟩,
    ff_not_in_engagementIssues a wc⟩

end QE

/-- C6 counterexample: the claimed override issue is never surfaced.  For a
100-character article (below the hard floor) the evaluation does report
`passed = false`, but its issues list is exactly the ordinary itemized list
and does not contain the distinct `[強制不合格]` override issue — the insert
runs only when the weighted score passes together with the floor failure,
which cannot happen. -/
theorem hard_floor_issue_never_surfaced_counterexample :
    (QE.evaluateArticle { content := "", word_count := some 100 }).passed = false
    ∧ (QE.evaluateArticle { content := "", word_count := some 100 }).issues =
        QE.articleIssuesBase { content := "", word_count := some 100 }
    ∧ QE.forcedFailIssue
        (QE.wordCountOf { content := "", word_count := some 100 }) ∉
        (QE.evaluateArticle { content := "", word_count := some 100 }).issues := by
  have hlow : QE.wordCountOf { content := "", word_count := some 100 } < 15000 := by
    norm_num [QE.wordCountOf]
  have hsp := QE.scorePassedA_false_of_low _ hlow
  have hbase := QE.issues_eq_base_of_not_scorePassed _ hsp
  refine ⟨by simp [QE.evaluateArticle, hsp], hbase, ?_⟩
  rw [hbase]
  exact QE.forcedFailIssue_not_in_base _ _

/-- C6 amended: an article below the 15,000-character hard floor always fails
the article evaluation (and its category entry in the full report) regardless
of the weighted score; but below the floor the weighted score is capped at
44/50 = 88% and can never meet the 97% threshold on its own, so the guarded
`[強制不合格]` override issue is never surfaced — the issues list is exactly
the ordinary itemized list (the insert is dead code). -/
theorem hard_floor_fail_without_distinct_issue (st : QE.EvaluatorState)
    (fs : QE.FS) (a : QE.Article) (sd : Option QE.SlidesData)
    (vd : Option QE.VideoData) (h : QE.wordCountOf a < 15000) :
    (QE.evaluateArticle a).passed = false
    ∧ (QE.evaluateAll st fs a sd vd).article.passed = false
    ∧ QE.articleScore a ≤ 44
    ∧ QE.scorePassedA a = false
    ∧ (QE.evaluateArticle a).issues = QE.articleIssuesBase a
    ∧ QE.forcedFailIssue (QE.wordCountOf a) ∉ (QE.evaluateArticle a).issues := by
  have hsp := QE.scorePassedA_false_of_low a h
  have hbase := QE.issues_eq_base_of_not_scorePassed a hsp
  refine ⟨?_, ?_, QE.articleScore_le_44 a h, hsp, hbase, ?_⟩
  · simp [QE.evaluateArticle, hsp]
  · simp [QE.evaluateAll, QE.catOut, QE.evaluateArticle, hsp]
  · rw [hbase]
    exact QE.forcedFailIssue_not_in_base a (QE.wordCountOf a)

/-- Witness for the amended C6 at a 100-character article: the evaluation
fails both stand-alone and inside the full report, no forced-failure issue is
inserted, and the issues list does not contain the override issue. -/
theorem hard_floor_fail_without_distinct_issue_witness :
    (QE.evaluateArticle { content := "", word_count := some 100 }).passed = false
    ∧ (QE.evaluateAll {} QE.emptyFS { content := "", word_count := some 100 }
        none none).article.passed = false
    ∧ QE.forcedFailIssue
        (QE.wordCountOf { content := "", word_count := some 100 }) ∉
        (QE.evaluateArticle { content := "", word_count := some 100 }).issues := by
  have h := hard_floor_fail_without_distinct_issue {} QE.emptyFS
    { content := "", word_count := some 100 } none none (by norm_num [QE.wordCountOf])
  exact ⟨h.1, h.2.1, h.2.2.2.2.2⟩

/-- C7: quality evaluation is deterministic — it is a pure function of the
article, slides data, video data and the file-system state, and in
particular does not depend on the evaluator instance's only mutable state
(the cached Gemini client), so two invocations on identical inputs return
identical reports. -/
theorem evaluation_deterministic (st st' : QE.EvaluatorState) (fs : QE.FS)
    (a : QE.Article) (sd : Option QE.SlidesData) (vd : Option QE.VideoData) :
    QE.evaluateAll st fs a sd vd = QE.evaluateAll st' fs a sd vd := rfl

namespace SV

/-- The staged render hand-off state under `remotion/public/`: whether
`narration.wav` and the `slides/` image directory currently exist. -/
structure PubFS where
  narrationWav : Bool
  slidesDir : Bool
deriving Repr, DecidableEq

/-- Outcome of one pipeline stage: normal completion, an error result
(`status == "error"`/render returncode nonzero), or a raised exception. -/
inductive StageOutcome where
  | ok
  | err
  | exn
deriving Repr, DecidableEq

/-- Final status of `generate_slide_video`; success carries the reported
video duration `len(slides) * slide_duration`. -/
inductive RunStatus where
  | success (duration : ℕ)
  | error
deriving Repr, DecidableEq

/-- The externally determined outcomes of one `generate_slide_video` run:
per-stage outcomes, the slide list produced by step 1, and whether step 3
ends with a valid staged `narration.wav` (the code deletes an invalid one
again immediately). -/
structure RunOutcomes where
  step1 : StageOutcome := .ok
  step1Slides : List Unit := []
  step2 : StageOutcome := .ok
  audioStaged : Bool := false
  step3 : StageOutcome := .ok
  render : StageOutcome := .ok
deriving Repr, DecidableEq

/-- `MAX_VIDEO_DURATION = 30`. -/
def MAX_VIDEO_DURATION : ℕ := 30

/-- `max_slides = MAX_VIDEO_DURATION // slide_duration`. -/
def maxSlides (slide_duration : ℕ) : ℕ := MAX_VIDEO_DURATION / slide_duration

/-- Lines 578–582: `if len(slides) > max_slides: slides = slides[:max_slides]`. -/
def capSlides (slides : List Unit) (slide_duration : ℕ) : List Unit :=
  if slides.length > maxSlides slide_duration then slides.take (maxSlides slide_duration)
  else slides

/-- `_cleanup_public_files`: unlink `narration.wav` if present and remove the
`slides/` directory if present (removal itself modelled as succeeding). -/
def cleanupPublicFiles (_fs : PubFS) : PubFS := ⟨false, false⟩

/-- `_step3_prepare_files`: recreates `public/slides/` and copies the images
into it, then writes `narration.wav` exactly when the audio payload is
present and validates. -/
def stageFiles (_fs : PubFS) (audioStaged : Bool) : PubFS := ⟨audioStaged, true⟩

/-- The body of the `try:` block of `generate_slide_video`, from step 1 to
step 4: early error returns, caught exceptions (any raise inside the block is
absorbed by the `except` into an error result) and the success path with the
reported duration `len(slides) * slide_duration`. -/
def tryBody (fs : PubFS) (slide_duration : ℕ) (o : RunOutcomes) : RunStatus × PubFS :=
  match o.step1 with
  | .exn => (.error, fs)
  | .err => (.error, fs)
  | .ok =>
    match o.step2 with
    | .exn => (.error, fs)
    | _ =>
      match o.step3 with
      | .exn => (.error, { fs with slidesDir := true })
      | _ =>
        let fs1 := stageFiles fs o.audioStaged
        match o.render with
        | .ok => (.success ((capSlides o.step1Slides slide_duration).length
            * slide_duration), fs1)
        | .err => (.error, fs1)
        | .exn => (.error, fs1)

/-- `SlideVideoGenerator.generate_slide_video`: the `//` on a zero
`slide_duration` raises before anything runs; a missing Node.js dependency
returns an error before the `try`/`finally`; otherwise the `finally:` runs
`_cleanup_public_files()` on every exit path of the `try` body. -/
def run (fs : PubFS) (nodeOk : Bool) (slide_duration : ℕ) (o : RunOutcomes) :
    Except String (RunStatus × PubFS) :=
  if slide_duration = 0 then .error "ZeroDivisionError"
  else if !nodeOk then .ok (.error, fs)
  else
    let r := tryBody fs slide_duration o
    .ok (r.1, cleanupPublicFiles r.2)

end SV

/-- C9: every run of the slide-video pipeline that reaches its
`try`/`finally` (Node.js available, valid slide duration) removes the staged
render hand-off files — `narration.wav` and the `slides/` directory under the
renderer's public directory — before returning, on every exit path: success,
render failure, early error result or exception at any stage. -/
theorem staged_files_cleaned_on_every_exit (fs : SV.PubFS) (d : ℕ)
    (o : SV.RunOutcomes) (hd : 0 < d) :
    ∃ st, SV.run fs true d o = Except.ok (st, ⟨false, false⟩) := by
  refine ⟨(SV.tryBody fs d o).1, ?_⟩
  unfold SV.run
  rw [if_neg (by omega)]
  rfl

/-- Witness for C9: a run whose render step fails, starting from a public
directory that still has both staged files, ends with both removed. -/
theorem staged_files_cleaned_on_every_exit_witness :
    (SV.run ⟨true, true⟩ true 5
      { step1 := .ok, audioStaged := true, render := .err }).toOption.map Prod.snd =
      some ⟨false, false⟩ := by
  obtain ⟨st, h⟩ := staged_files_cleaned_on_every_exit ⟨true, true⟩ 5
    { step1 := .ok, audioStaged := true, render := .err } (by norm_num)
  rw [h]
  rfl

/-- C10: for every positive `slide_duration`, the slide list handed to the
renderer is truncated to at most `30 // slide_duration` slides, and on every
successful run the reported video duration `len(slides) * slide_duration` is
exactly that of the truncated list and never exceeds 30 seconds. -/
theorem video_duration_capped_at_30s (fs : SV.PubFS) (d : ℕ) (o : SV.RunOutcomes)
    (hd : 0 < d) :
    (SV.capSlides o.step1Slides d).length ≤ SV.maxSlides d
    ∧ ∀ dur fs', SV.run fs true d o = Except.ok (.success dur, fs') →
        dur = (SV.capSlides o.step1Slides d).length * d ∧ dur ≤ 30 := by
  have hcap : (SV.capSlides o.step1Slides d).length ≤ SV.maxSlides d := by
    unfold SV.capSlides
    by_cases h : o.step1Slides.length > SV.maxSlides d
    · rw [if_pos h]
      simp [List.length_take]
    · rw [if_neg h]
      omega
  refine ⟨hcap, ?_⟩
  intro dur fs' h
  unfold SV.run at h
  rw [if_neg (by omega)] at h
  simp only [Bool.not_true, Bool.false_eq_true, if_false, Except.ok.injEq] at h
  have hst : (SV.tryBody fs d o).1 = .success dur := by
    have := congrArg Prod.fst h
    simpa using this
  have hdur : dur = (SV.capSlides o.step1Slides d).length * d := by
    obtain ⟨s1, sl, s2, au, s3, r⟩ := o
    cases s1 <;> cases s2 <;> cases s3 <;> cases r <;> simp_all [SV.tryBody]
  refine ⟨hdur, ?_⟩
  rw [hdur]
  calc (SV.capSlides o.step1Slides d).length * d
      ≤ SV.maxSlides d * d := Nat.mul_le_mul_right d hcap
    _ ≤ 30 := Nat.div_mul_le_self 30 d

/-- Witness for C10: ten generated slides at 5 s each are truncated to six
and the successful run reports exactly 30 s. -/
theorem video_duration_capped_at_30s_witness :
    SV.run ⟨false, false⟩ true 5
      { step1 := .ok, step1Slides := List.replicate 10 (), render := .ok } =
      Except.ok (.success 30, ⟨false, false⟩)
    ∧ (30 : ℕ) ≤ 30 := by
  refine ⟨by rfl, ?_⟩
  exact ((video_duration_capped_at_30s ⟨false, false⟩ 5
    { step1 := .ok, step1Slides := List.replicate 10 (), render := .ok }
    (by norm_num)).2 30 ⟨false, false⟩ (by rfl)).2

/-- The clamp operation in the words of the spec: `clamp(raw, lo, hi)`. -/
def clampSpec (x lo hi : ℚ) : ℚ := max lo (min hi x)

/-- C1: for every list of per-scene audio results, the Timeline produced by
`TimingCalculator.calculate` tiles the frame range with no gaps or overlaps:
the first entry starts at frame 0, each entry's `endFrame` is its
`startFrame` plus that scene's frame count, each subsequent entry starts
where the previous one ended, and `totalFrames` is the last entry's
`endFrame`, equivalently the sum of the per-scene frame counts. -/
theorem timeline_tiles_frame_range (fps : ℕ) (cfg : V3.VideoConfig)
    (audios : List V3.AudioResult) :
    (V3.calculate fps audios cfg).slides.length = audios.length
    ∧ (audios ≠ [] →
        ((V3.calculate fps audios cfg).slides.getD 0 V3.dummySlide).startFrame = 0
        ∧ ((V3.calculate fps audios cfg).slides.getD (audios.length - 1)
            V3.dummySlide).endFrame = (V3.calculate fps audios cfg).totalFrames)
    ∧ (∀ k, k < audios.length →
        ((V3.calculate fps audios cfg).slides.getD k V3.dummySlide).endFrame =
          ((V3.calculate fps audios cfg).slides.getD k V3.dummySlide).startFrame
            + V3.sceneFrames fps cfg (audios.getD k V3.dummyAudio))
    ∧ (∀ k, k + 1 < audios.length →
        ((V3.calculate fps audios cfg).slides.getD (k + 1) V3.dummySlide).startFrame =
          ((V3.calculate fps audios cfg).slides.getD k V3.dummySlide).endFrame)
    ∧ (V3.calculate fps audios cfg).totalFrames =
        (audios.map (V3.sceneFrames fps cfg)).sum := by
  refine ⟨V3.calcLoop_length fps cfg audios 0 0, fun h => ⟨?_, ?_⟩, ?_, ?_, ?_⟩
  · exact V3.calcLoop_head_start fps cfg audios 0 0 h
  · exact V3.calcLoop_last_end fps cfg audios 0 0 h
  · exact fun k hk => V3.calcLoop_end_eq fps cfg audios 0 0 k hk
  · exact fun k hk => V3.calcLoop_chain fps cfg audios 0 0 k hk
  · simpa using V3.calcLoop_snd fps cfg audios 0 0

/-- Witness for C1 at a concrete two-scene input (audio durations 2 s and
missing): frame counts are 90 and 150, entries are `(0, 90)` and `(90, 240)`
and `totalFrames = 240`. -/
theorem timeline_tiles_frame_range_witness :
    ((V3.calculate 30 [⟨some 1, some 2, ""⟩, ⟨some 2, none, ""⟩] {}).slides.getD 0
        V3.dummySlide).startFrame = 0
    ∧ ((V3.calculate 30 [⟨some 1, some 2, ""⟩, ⟨some 2, none, ""⟩] {}).slides.getD 1
        V3.dummySlide).endFrame =
      (V3.calculate 30 [⟨some 1, some 2, ""⟩, ⟨some 2, none, ""⟩] {}).totalFrames
    ∧ ((V3.calculate 30 [⟨some 1, some 2, ""⟩, ⟨some 2, none, ""⟩] {}).slides.getD 1
        V3.dummySlide).startFrame =
      ((V3.calculate 30 [⟨some 1, some 2, ""⟩, ⟨some 2, none, ""⟩] {}).slides.getD 0
        V3.dummySlide).endFrame
    ∧ (V3.calculate 30 [⟨some 1, some 2, ""⟩, ⟨some 2, none, ""⟩] {}).totalFrames = 240 := by
  have h := timeline_tiles_frame_range 30 {} [⟨some 1, some 2, ""⟩, ⟨some 2, none, ""⟩]
  refine ⟨(h.2.1 (by simp)).1, ?_, h.2.2.2.1 0 (by norm_num), ?_⟩
  · simpa using (h.2.1 (by simp)).2
  · rw [h.2.2.2.2]
    norm_num [V3.sceneFrames, V3.sceneDuration, V3.rawDuration, pyInt]

/-- C2 counterexample: the claim computes `frames = round(clamped * fps)`, but
the code computes `int(clamped * fps)` (truncation), and an audio duration of
`0.0` is falsy in Python so it takes the `default_slide_duration` branch
without padding.  At audio duration `3.02` the code yields 105 frames while
`round(3.52 * 30) = 106`; at audio duration `0.0` the code yields 150 frames
while the claim's formula gives `round(3.0 * 30) = 90`. -/
theorem scene_frames_round_counterexample :
    (((V3.calculate 30 [⟨some 1, some (151/50), ""⟩] {}).slides.getD 0
        V3.dummySlide).endFrame = 105
      ∧ round (clampSpec ((151 : ℚ)/50 + 1/2) 3 30 * 30) = 106)
    ∧ (((V3.calculate 30 [⟨some 1, some 0, ""⟩] {}).slides.getD 0
        V3.dummySlide).endFrame = 150
      ∧ round (clampSpec ((0 : ℚ) + 1/2) 3 30 * 30) = 90) := by
  refine ⟨⟨?_, ?_⟩, ?_, ?_⟩
  · norm_num [V3.calculate, V3.calcLoop, V3.sceneFrames, V3.sceneDuration,
      V3.rawDuration, pyInt]
  · rw [clampSpec, round_eq]; norm_num
  · norm_num [V3.calculate, V3.calcLoop, V3.sceneFrames, V3.sceneDuration,
      V3.rawDuration, pyInt]
  · rw [clampSpec, round_eq]; norm_num

/-- C2 amended: per scene the frame count actually produced inside the
timeline equals `int(clamped_duration * fps)` — truncation, not rounding —
where `clamped_duration = clamp(raw_duration, min_scene_seconds,
max_scene_seconds)` and `raw_duration = audio.duration + padding` when a
nonzero audio duration is present, and `default_slide_duration` (without
padding) otherwise. -/
theorem scene_frames_truncated_clamped (fps : ℕ) (cfg : V3.VideoConfig)
    (audios : List V3.AudioResult) (k : ℕ) (hk : k < audios.length) :
    ((V3.calculate fps audios cfg).slides.getD k V3.dummySlide).endFrame -
      ((V3.calculate fps audios cfg).slides.getD k V3.dummySlide).startFrame =
    pyInt (clampSpec (V3.rawDuration cfg (audios.getD k V3.dummyAudio))
      cfg.min_slide_duration cfg.max_slide_duration * fps) := by
  have h := V3.calcLoop_end_eq fps cfg audios 0 0 k hk
  rw [show (V3.calculate fps audios cfg).slides = (V3.calcLoop fps cfg audios 0 0).1
    from rfl, h, add_sub_cancel_left]
  rfl

/-- Witness for the amended C2 at audio duration `3.02`: the first scene's
frame span is `int(3.52 * 30) = 105`. -/
theorem scene_frames_truncated_clamped_witness :
    ((V3.calculate 30 [⟨some 1, some (151/50), ""⟩] {}).slides.getD 0
        V3.dummySlide).endFrame -
      ((V3.calculate 30 [⟨some 1, some (151/50), ""⟩] {}).slides.getD 0
        V3.dummySlide).startFrame = 105 := by
  rw [scene_frames_truncated_clamped 30 {} [⟨some 1, some (151/50), ""⟩] 0 (by norm_num)]
  norm_num [V3.rawDuration, clampSpec, pyInt]

/-- C3 counterexample: on audio durations `[0.0, 4.5, 40.0]` with the default
configuration the code does not produce the claimed frames `[90, 150, 900]`
and `totalFrames = 1140`: the first scene's audio duration `0.0` is falsy, so
the scene takes `default_slide_duration = 5.0` and 150 frames, giving
`totalFrames = 1200`. -/
theorem scenario_three_scenes_counterexample :
    (V3.calculate 30 [⟨some 1, some 0, ""⟩, ⟨some 2, some (9/2), ""⟩,
        ⟨some 3, some 40, ""⟩] {}).totalFrames ≠ 1140
    ∧ ((V3.calculate 30 [⟨some 1, some 0, ""⟩, ⟨some 2, some (9/2), ""⟩,
        ⟨some 3, some 40, ""⟩] {}).slides.getD 0 V3.dummySlide).endFrame ≠ 90 := by
  refine ⟨?_, ?_⟩ <;>
    norm_num [V3.calculate, V3.calcLoop, V3.sceneFrames, V3.sceneDuration,
      V3.rawDuration, pyInt]

/-- C3 amended: with fps 30, min 3 s, max 30 s, padding 0.5 s and audio
durations `[0.0, 4.5, 40.0]`, the first scene's falsy duration takes
`default_slide_duration = 5.0` (not the 3.0 s minimum), so the clamped
durations are `[5.0, 5.0, 30.0]`, the frames `[150, 150, 900]`, the entries
`[(0,150), (150,300), (300,1200)]` and `totalFrames = 1200`; the over-long
third audio is still capped at `max_scene_seconds`. -/
theorem scenario_three_scenes_amended :
    (V3.calculate 30 [⟨some 1, some 0, ""⟩, ⟨some 2, some (9/2), ""⟩,
        ⟨some 3, some 40, ""⟩] {}).slides.map (fun s => s.duration) = [5, 5, 30]
    ∧ (V3.calculate 30 [⟨some 1, some 0, ""⟩, ⟨some 2, some (9/2), ""⟩,
        ⟨some 3, some 40, ""⟩] {}).slides.map (fun s => (s.startFrame, s.endFrame)) =
      [(0, 150), (150, 300), (300, 1200)]
    ∧ (V3.calculate 30 [⟨some 1, some 0, ""⟩, ⟨some 2, some (9/2), ""⟩,
        ⟨some 3, some 40, ""⟩] {}).totalFrames = 1200 := by
  refine ⟨?_, ?_, ?_⟩ <;>
    norm_num [V3.calculate, V3.calcLoop, V3.sceneFrames, V3.sceneDuration,
      V3.rawDuration, pyInt]

/-- C4: for a scene whose narration is non-empty and splits into at least one
sentence, every subtitle segment except the last spans exactly
`total_frames // n` frames, the last segment ends exactly at
`start_frame + total_frames` (the scene's own end frame), and when the text
contains no sentence-ending punctuation the whole text becomes one single
segment spanning the scene. -/
theorem subtitle_segments_partition_scene (text : String) (start total : ℤ)
    (h1 : V3.pyStrip text ≠ "") (h2 : V3.sentencesOf text ≠ []) :
    (V3.generateSubtitles text start total).length = (V3.sentencesOf text).length
    ∧ (∀ k, k + 1 < (V3.sentencesOf text).length →
        ((V3.generateSubtitles text start total).getD k V3.dummySub).endFrame =
          ((V3.generateSubtitles text start total).getD k V3.dummySub).startFrame +
            total.fdiv (V3.sentencesOf text).length)
    ∧ ((V3.generateSubtitles text start total).getD ((V3.sentencesOf text).length - 1)
        V3.dummySub).endFrame = start + total
    ∧ ((∀ c ∈ text.toList, V3.sentencePunct c = false) →
        (V3.generateSubtitles text start total).length = 1
        ∧ ((V3.generateSubtitles text start total).getD 0 V3.dummySub).startFrame = start
        ∧ ((V3.generateSubtitles text start total).getD 0 V3.dummySub).endFrame =
            start + total) := by
  have htext : text ≠ "" := by
    intro h
    exact h1 (by rw [h]; rfl)
  have hguard : ¬(text = "" ∨ V3.pyStrip text = "") := by
    rintro (h | h)
    · exact htext h
    · exact h1 h
  have hgen : V3.generateSubtitles text start total =
      V3.subtitleLoop 30 (total.fdiv (V3.sentencesOf text).length) (start + total)
        (V3.sentencesOf text) start := by
    unfold V3.generateSubtitles
    rw [if_neg hguard, if_neg h2]
  refine ⟨?_, ?_, ?_, ?_⟩
  · rw [hgen]; exact V3.subtitleLoop_length _ _ _ _ _
  · intro k hk
    rw [hgen]
    exact V3.subtitleLoop_nonlast _ _ _ _ _ k hk
  · rw [hgen]
    exact V3.subtitleLoop_last _ _ _ _ _ h2
  · intro hp
    have hsent := V3.sentencesOf_no_punct text hp h1
    rw [hgen, hsent]
    simp [V3.subtitleLoop]

/-- Witness for C4: on `"こんにちは。世界！テスト"` (three sentences) with
start frame 90 and 150 total frames, the segments are
`(90,140), (140,190), (190,240)`; on the punctuation-free `"こんにちは"` with
start 0 and 100 frames, a single segment spans `(0, 100)`. -/
theorem subtitle_segments_partition_scene_witness :
    (V3.generateSubtitles "こんにちは。世界！テスト" 90 150).length = 3
    ∧ ((V3.generateSubtitles "こんにちは。世界！テスト" 90 150).getD 1
        V3.dummySub).endFrame =
      ((V3.generateSubtitles "こんにちは。世界！テスト" 90 150).getD 1
        V3.dummySub).startFrame + 50
    ∧ ((V3.generateSubtitles "こんにちは。世界！テスト" 90 150).getD 2
        V3.dummySub).endFrame = 240
    ∧ (V3.generateSubtitles "こんにちは" 0 100).length = 1
    ∧ ((V3.generateSubtitles "こんにちは" 0 100).getD 0 V3.dummySub).endFrame = 100 := by
  have h := subtitle_segments_partition_scene "こんにちは。世界！テスト" 90 150
    (by decide) (by decide)
  have hn : (V3.sentencesOf "こんにちは。世界！テスト").length = 3 := by decide
  have h' := subtitle_segments_partition_scene "こんにちは" 0 100 (by decide) (by decide)
  have hnp := h'.2.2.2 (by decide)
  refine ⟨by rw [h.1, hn], ?_, ?_, hnp.1, by rw [hnp.2.2]; norm_num⟩
  · have := h.2.1 1 (by rw [hn]; norm_num)
    rw [this]
    norm_num [Int.fdiv, hn]
  · have := h.2.2.1
    rw [hn] at this
    rw [this]
    norm_num

